import Mathlib

/-!
Verification development for the broker-integration layer of this
repository.  The definitions below are a shallow embedding of the
JavaScript/TypeScript source:

* `src/server/services/shoonyaService.js` — session cache, order
  placement, logout (class `ShoonyaService`);
* `src/unnamed/part_000` — positions/holdings aggregation and P&L
  arithmetic (component `Positions`);
* `src/server/index.js` — the fatal-condition handlers installed in
  `bootstrap`.

JavaScript numbers are modelled as `Int` (quantities) and `Rat`
(prices/P&L); possibly-`undefined` fields as `Option`; JS truthiness of
`x || y` and `if (!x)` is modelled explicitly (`0`, the empty string and
`undefined` are falsy).  Network I/O and the database are modelled as an
explicit environment (`Env`), and every function returns the list of
outbound network calls it performed so that claims about "no network
call" are statable.
-/

namespace Spec2Proof

/-! ### JavaScript truthiness helpers -/

/-- JS `a || b` for a possibly-undefined string: returns `b` when `a` is
`undefined` or the empty string. -/
def jsOrS (a : Option String) (b : String) : String :=
  match a with
  | some s => if s = "" then b else s
  | none => b

/-- JS `a || b` for a possibly-undefined integer: returns `b` when `a` is
`undefined` or `0`. -/
def jsOrI (a : Option Int) (b : Int) : Int :=
  match a with
  | some v => if v = 0 then b else v
  | none => b

/-- JS `a || b` for a possibly-undefined rational: returns `b` when `a` is
`undefined` or `0`. -/
def jsOrR (a : Option Rat) (b : Rat) : Rat :=
  match a with
  | some v => if v = 0 then b else v
  | none => b

/-- JS truthiness of a possibly-undefined string (`undefined` and `""` are
falsy). -/
def truthyS (a : Option String) : Bool :=
  match a with
  | some s => s != ""
  | none => false

/-- JS truthiness of a possibly-undefined integer (`undefined` and `0` are
falsy). -/
def truthyI (a : Option Int) : Bool :=
  match a with
  | some v => v != 0
  | none => false

/-- JS truthiness of a possibly-undefined rational (`undefined` and `0` are
falsy). -/
def truthyR (a : Option Rat) : Bool :=
  match a with
  | some v => v != 0
  | none => false

/-! ### Data model of shoonyaService.js -/

/-- The in-memory session object built by `initializeShoonya`
(shoonyaService.js lines 246-251). -/
structure ShoonyaSession where
  apiSecret : String
  sessionToken : String
  userId : String
  accountId : String
deriving DecidableEq, Repr

/-- A row of the `broker_connections` table as read by
`getShoonyaInstance`.  Encrypted fields and the expiry are nullable. -/
structure BrokerConnection where
  id : Nat
  user_id_broker : String
  api_secret : Option String
  access_token : Option String
  access_token_expires_at : Option Int
  is_active : Bool
deriving DecidableEq, Repr

/-- The order parameters accepted by `ShoonyaService.placeOrder`
(shoonyaService.js lines 357-409); every field may be absent. -/
structure OrderParams where
  exch : Option String := none
  tsym : Option String := none
  qty : Option Int := none
  prc : Option Rat := none
  prd : Option String := none
  trantype : Option String := none
  prctyp : Option String := none
  ret : Option String := none
  remarks : Option String := none
  dscqty : Option String := none
  amo : Option String := none
  trgprc : Option Rat := none
deriving DecidableEq, Repr

/-- The wire payload built by `placeOrder` (shoonyaService.js lines
375-392).  The source encodes `prc`/`trgprc` as decimal strings; they are
modelled as the encoded rational values. -/
structure ShoonyaOrderData where
  exch : String
  tsym : String
  qty : Int
  prc : Rat
  prd : String
  trantype : String
  prctyp : String
  ret : String
  remarks : String
  dscqty : String
  amo : String
  trgprc : Option Rat
deriving DecidableEq, Repr

/-- An outbound HTTP request made through `makeApiCallWithInstance`,
tagged by route. -/
inductive NetCall where
  | userdetails
  | placeorder (data : ShoonyaOrderData)
  | logoutCall
deriving DecidableEq, Repr

/-- The session cache `this.shoonyaInstances` (a JS `Map` keyed by
connection id), modelled as an association list. -/
abbrev Cache := List (Nat × ShoonyaSession)

/-- JS `Map.set`: the new binding shadows any older one under `lookup`. -/
def cacheSet (c : Cache) (k : Nat) (v : ShoonyaSession) : Cache :=
  (k, v) :: c

/-- `ShoonyaService.clearCachedInstance` (lines 721-726): delete the entry
for the given connection id. -/
def clearCachedInstance (c : Cache) (id : Nat) : Cache :=
  c.filter (fun p => !(p.1 == id))

/-- The external world: database contents, the vault decryption function,
the current epoch time, and the outcomes of the broker network calls. -/
structure Env where
  db : List BrokerConnection
  decrypt : String → String
  now : Int
  probeOk : ShoonyaSession → Bool
  placeOk : Bool
  logoutOk : Bool

/-- The SQL query in `getShoonyaInstance` (lines 276-279):
SELECT * FROM broker_connections WHERE id = ? AND is_active = 1. -/
def dbGet (db : List BrokerConnection) (id : Nat) : Option BrokerConnection :=
  db.find? (fun c => c.id == id && c.is_active)

/-- Result of a service call: the value or thrown error, the outbound
network calls made, and the session cache afterwards. -/
structure CallResult (α : Type) where
  result : Except String α
  calls : List NetCall
  cache : Cache

/-- The session object constructed by `initializeShoonya` (lines 243-251)
after decrypting the stored credentials. -/
def mkSession (env : Env) (conn : BrokerConnection) : ShoonyaSession :=
  { apiSecret := env.decrypt (conn.api_secret.getD "")
    sessionToken := env.decrypt (conn.access_token.getD "")
    userId := conn.user_id_broker
    accountId := conn.user_id_broker }

/-- `ShoonyaService.initializeShoonya` (lines 225-264): validate the
stored credentials, check token expiry (note the JS guard
`expires_at && expires_at < now` skips the check when the field is null
or `0`), decrypt, build the session, probe it with the `userdetails`
call (`testConnection`, lines 344-354), and cache it only on probe
success. -/
def initializeShoonya (env : Env) (conn : BrokerConnection) (cache : Cache) :
    CallResult ShoonyaSession :=
  if !(truthyS conn.api_secret) then
    ⟨.error "Failed to initialize Shoonya connection: API secret is missing from broker connection",
      [], cache⟩
  else if !(truthyS conn.access_token) then
    ⟨.error "Failed to initialize Shoonya connection: Access token is missing from broker connection",
      [], cache⟩
  else if truthyI conn.access_token_expires_at &&
      decide (conn.access_token_expires_at.getD 0 < env.now) then
    ⟨.error "Failed to initialize Shoonya connection: Session token has expired. Please refresh your token.",
      [], cache⟩
  else
    let sess := mkSession env conn
    if env.probeOk sess then
      ⟨.ok sess, [.userdetails], cacheSet cache conn.id sess⟩
    else
      ⟨.error "Failed to initialize Shoonya connection: Connection test failed",
        [.userdetails], cache⟩

/-- `ShoonyaService.getShoonyaInstance` (lines 267-288): return the cached
session if present (no checks, no network); otherwise load the active
connection row and initialize. -/
def getShoonyaInstance (env : Env) (id : Nat) (cache : Cache) :
    CallResult ShoonyaSession :=
  match List.lookup id cache with
  | some s => ⟨.ok s, [], cache⟩
  | none =>
    match dbGet env.db id with
    | none => ⟨.error "Broker connection not found or inactive", [], cache⟩
    | some conn => initializeShoonya env conn cache

/-- The wire payload construction in `placeOrder` (lines 375-392): note
that `prc` is taken from the request only when `prctyp === 'LMT'`
(defaulting to `0` when absent) and that `trgprc` is attached only for
the stop-loss price types when truthy. -/
def mkShoonyaOrderData (p : OrderParams) : ShoonyaOrderData :=
  { exch := jsOrS p.exch "NSE"
    tsym := p.tsym.getD ""
    qty := p.qty.getD 0
    prc := if p.prctyp == some "LMT" then jsOrR p.prc 0 else 0
    prd := jsOrS p.prd "I"
    trantype := p.trantype.getD ""
    prctyp := jsOrS p.prctyp "MKT"
    ret := jsOrS p.ret "DAY"
    remarks := jsOrS p.remarks ""
    dscqty := jsOrS p.dscqty "0"
    amo := jsOrS p.amo "NO"
    trgprc :=
      if (p.prctyp == some "SL-LMT" || p.prctyp == some "SL-MKT") && truthyR p.trgprc
      then some (p.trgprc.getD 0) else none }

/-- `ShoonyaService.placeOrder` (lines 357-409): obtain the session (the
cache hit path makes no network call), then validate `tsym`, `trantype`
and `qty` by JS truthiness, then dispatch the mapped payload.  There is
no validation of `prc` for LIMIT orders and no sign check on `qty`. -/
def placeOrder (env : Env) (id : Nat) (p : OrderParams) (cache : Cache) :
    CallResult ShoonyaOrderData :=
  match getShoonyaInstance env id cache with
  | ⟨.error e, calls, c⟩ => ⟨.error ("Order placement failed: " ++ e), calls, c⟩
  | ⟨.ok _, calls, c⟩ =>
    if !(truthyS p.tsym) then
      ⟨.error "Order placement failed: tsym (trading symbol) is required for Shoonya orders", calls, c⟩
    else if !(truthyS p.trantype) then
      ⟨.error "Order placement failed: trantype is required", calls, c⟩
    else if !(truthyI p.qty) then
      ⟨.error "Order placement failed: qty is required", calls, c⟩
    else
      let data := mkShoonyaOrderData p
      if env.placeOk then
        ⟨.ok data, calls ++ [.placeorder data], c⟩
      else
        ⟨.error "Order placement failed: API call to placeorder failed", calls ++ [.placeorder data], c⟩

/-- `ShoonyaService.logout` (lines 699-718): obtain the session, call the
broker logout endpoint, and clear the cached instance; the `catch` branch
also clears the cached instance before rethrowing. -/
def logout (env : Env) (id : Nat) (cache : Cache) : CallResult Unit :=
  match getShoonyaInstance env id cache with
  | ⟨.error e, calls, c⟩ =>
    ⟨.error ("Failed to logout: " ++ e), calls, clearCachedInstance c id⟩
  | ⟨.ok _, calls, c⟩ =>
    if env.logoutOk then
      ⟨.ok (), calls ++ [.logoutCall], clearCachedInstance c id⟩
    else
      ⟨.error "Failed to logout: API call to logout failed", calls ++ [.logoutCall],
        clearCachedInstance c id⟩

/-! ### Positions / holdings aggregation (src/unnamed/part_000) -/

/-- The fields of one active broker connection that the aggregation uses. -/
structure ConnInfo where
  id : Nat
  broker_name : String
deriving DecidableEq, Repr

/-- A broker-native position entry as consumed by the normalization in
`fetchPositionsData` (part_000 lines 144-156); every aliased source field
may be absent. -/
structure RawPosition where
  symbol : Option String := none
  tradingsymbol : Option String := none
  exchange : Option String := none
  quantity : Option Int := none
  net_quantity : Option Int := none
  average_price : Option Rat := none
  buy_price : Option Rat := none
  price : Option Rat := none
  current_price : Option Rat := none
  last_price : Option Rat := none
  ltp : Option Rat := none
  pnl : Option Rat := none
  unrealised : Option Rat := none
  pnl_percentage : Option Rat := none
  product : Option String := none
deriving DecidableEq, Repr

/-- The normalized `Position` shape (part_000 lines 12-24).  The
`last_updated` wall-clock timestamp is omitted from the model. -/
structure Position where
  symbol : String
  exchange : String
  quantity : Int
  average_price : Rat
  current_price : Rat
  pnl : Rat
  pnl_percentage : Rat
  product : String
  broker_name : String
  connection_id : Nat
deriving DecidableEq, Repr

/-- A broker-native holding entry as consumed by `fetchHoldingsData`
(part_000 lines 204-214). -/
structure RawHolding where
  symbol : Option String := none
  tradingsymbol : Option String := none
  exchange : Option String := none
  quantity : Option Int := none
  average_price : Option Rat := none
  buy_price : Option Rat := none
  price : Option Rat := none
  current_price : Option Rat := none
  last_price : Option Rat := none
  ltp : Option Rat := none
  pnl : Option Rat := none
  unrealised : Option Rat := none
  pnl_percentage : Option Rat := none
deriving DecidableEq, Repr

/-- The normalized `Holding` shape (part_000 lines 26-37), without the
wall-clock timestamp. -/
structure Holding where
  symbol : String
  exchange : String
  quantity : Int
  average_price : Rat
  current_price : Rat
  pnl : Rat
  pnl_percentage : Rat
  broker_name : String
  connection_id : Nat
deriving DecidableEq, Repr

/-- The per-entry normalization in `fetchPositionsData` (lines 144-156):
tolerant field aliasing via JS `||` chains. -/
def formatPosition (conn : ConnInfo) (pos : RawPosition) : Position :=
  { symbol := jsOrS pos.symbol (pos.tradingsymbol.getD "")
    exchange := jsOrS pos.exchange "NSE"
    quantity := jsOrI pos.quantity (jsOrI pos.net_quantity 0)
    average_price := jsOrR pos.average_price (jsOrR pos.buy_price (jsOrR pos.price 0))
    current_price := jsOrR pos.current_price (jsOrR pos.last_price (jsOrR pos.ltp 0))
    pnl := jsOrR pos.pnl (jsOrR pos.unrealised 0)
    pnl_percentage := jsOrR pos.pnl_percentage 0
    product := jsOrS pos.product "MIS"
    broker_name := conn.broker_name
    connection_id := conn.id }

/-- The per-entry normalization in `fetchHoldingsData` (lines 204-214). -/
def formatHolding (conn : ConnInfo) (h : RawHolding) : Holding :=
  { symbol := jsOrS h.symbol (h.tradingsymbol.getD "")
    exchange := jsOrS h.exchange "NSE"
    quantity := jsOrI h.quantity 0
    average_price := jsOrR h.average_price (jsOrR h.buy_price (jsOrR h.price 0))
    current_price := jsOrR h.current_price (jsOrR h.last_price (jsOrR h.ltp 0))
    pnl := jsOrR h.pnl (jsOrR h.unrealised 0)
    pnl_percentage := jsOrR h.pnl_percentage 0
    broker_name := conn.broker_name
    connection_id := conn.id }

/-- The per-connection loop of `fetchPositionsData` (lines 138-164): each
connection is fetched inside its own try/catch; a success contributes its
normalized entries and a `true` status, a failure contributes only a
`false` status, and the loop always continues. -/
def positionsLoop (fetch : ConnInfo → Except String (List RawPosition)) :
    List ConnInfo → List Position × List (Nat × Bool)
  | [] => ([], [])
  | conn :: rest =>
    let acc := positionsLoop fetch rest
    match fetch conn with
    | .ok raws => (raws.map (formatPosition conn) ++ acc.1, (conn.id, true) :: acc.2)
    | .error _ => (acc.1, (conn.id, false) :: acc.2)

/-- `fetchPositionsData` (lines 122-180): run the per-connection loop,
then drop zero-quantity entries (line 167). -/
def fetchPositionsData (conns : List ConnInfo)
    (fetch : ConnInfo → Except String (List RawPosition)) :
    List Position × List (Nat × Bool) :=
  let r := positionsLoop fetch conns
  (r.1.filter (fun p => decide (0 < p.quantity.natAbs)), r.2)

/-- The per-connection loop of `fetchHoldingsData` (lines 198-223). -/
def holdingsLoop (fetch : ConnInfo → Except String (List RawHolding)) :
    List ConnInfo → List Holding × List (Nat × Bool)
  | [] => ([], [])
  | conn :: rest =>
    let acc := holdingsLoop fetch rest
    match fetch conn with
    | .ok raws => (raws.map (formatHolding conn) ++ acc.1, (conn.id, true) :: acc.2)
    | .error _ => (acc.1, (conn.id, false) :: acc.2)

/-- `fetchHoldingsData` (lines 182-239): loop, then drop zero-quantity
entries (line 226). -/
def fetchHoldingsData (conns : List ConnInfo)
    (fetch : ConnInfo → Except String (List RawHolding)) :
    List Holding × List (Nat × Bool) :=
  let r := holdingsLoop fetch conns
  (r.1.filter (fun h => decide (0 < h.quantity.natAbs)), r.2)

/-- Whether an adapter call succeeded, for stating the per-connection
status map. -/
def exceptOk {α : Type} (e : Except String α) : Bool :=
  match e with
  | .ok _ => true
  | .error _ => false

/-- The displayed / summarized P&L of one normalized entry (part_000
lines 659-661 and, identically, lines 259-261):
investment and current value are computed from the ABSOLUTE quantity, and
the broker-supplied `pnl` is used only when truthy (nonzero). -/
def calculatedPnL (quantity : Int) (average_price current_price pnl : Rat) : Rat :=
  let investment := (quantity.natAbs : Rat) * average_price
  let currentValue := (quantity.natAbs : Rat) * current_price
  if pnl != 0 then pnl else currentValue - investment

/-- Definition transcribed from the words of the spec for claim C5 (for
comparison with the code): pnl is the broker-supplied value when the
broker supplies one, otherwise (current − average) × signed quantity. -/
def specClaimedPnl (supplied : Option Rat) (quantity : Int)
    (average_price current_price : Rat) : Rat :=
  match supplied with
  | some v => v
  | none => (current_price - average_price) * (quantity : Rat)

/-! ### Concurrency model for getShoonyaInstance (claim C3)

Two tasks run `getShoonyaInstance` for the same uncached connection id
on one event loop.  Each task is a sequence of atomic segments separated
by its `await` suspension points (shoonyaService.js lines 267-288 and
225-264): check the cache (pc 0), await the database read (pc 1), issue
the `testConnection` authentication probe and await it (pc 2), write the
cache and return (pc 3); pc 4 is finished.  A task whose cache check
hits returns immediately without probing.  The source has no in-flight
promise cache, so nothing orders the two tasks. -/

structure ConcState where
  cached : Bool
  pcA : Nat
  pcB : Nat
  probes : Nat
deriving DecidableEq, Repr

/-- One atomic segment of a single task: given its pc and the shared
cache flag, return the new pc, the new cache flag, and how many probe
calls the segment performed. -/
def stepPc (pc : Nat) (cached : Bool) : Nat × Bool × Nat :=
  match pc with
  | 0 => if cached then (4, cached, 0) else (1, cached, 0)
  | 1 => (2, cached, 0)
  | 2 => (3, cached, 1)
  | 3 => (4, true, 0)
  | _ => (pc, cached, 0)

/-- Run one scheduled segment: `false` schedules task A, `true` task B. -/
def doStep (useB : Bool) (s : ConcState) : ConcState :=
  if useB then
    let r := stepPc s.pcB s.cached
    { s with pcB := r.1, cached := r.2.1, probes := s.probes + r.2.2 }
  else
    let r := stepPc s.pcA s.cached
    { s with pcA := r.1, cached := r.2.1, probes := s.probes + r.2.2 }

/-- Run a whole schedule (interleaving) of the two tasks. -/
def runSched (sched : List Bool) (s : ConcState) : ConcState :=
  sched.foldl (fun st t => doStep t st) s

/-- Both tasks start at their cache check with the id uncached. -/
def initConc : ConcState := ⟨false, 0, 0, 0⟩

/-- The interleaving in which both tasks pass the cache check before
either finishes: A check, B check, A db, A probe, A set, B db, B probe,
B set. -/
def interleavedSched : List Bool :=
  [false, true, false, false, false, true, true, true]

/-- The fully serialized schedule: A runs to completion, then B checks
the (now warm) cache. -/
def sequentialSched : List Bool := [false, false, false, false, true]

/-! ### Fatal-condition handlers (src/server/index.js, bootstrap)

`orderStatusService` itself is not under src (only its caller is); its
`stopAllPolling` is modelled from the spec. -/

/-- The state of the order reconciliation service: the set of pending
poll timers, by handle. -/
structure ReconState where
  pendingPolls : List Nat
deriving DecidableEq, Repr

/-- Modelled from the spec: `orderStatusService.stopAllPolling` is not
under src (index.js only calls it); per spec sections 4.5 and 5 it
cancels all pending poll timers before returning. -/
def stopAllPolling (s : ReconState) : ReconState :=
  { s with pendingPolls := [] }

/-- One effect performed by a fatal-condition handler in `bootstrap`. -/
inductive BootEffect where
  | logError
  | stopPollingEff
  | exitProcess
deriving DecidableEq, Repr

/-- Process state: the reconciliation service plus whether the process
has exited. -/
structure SysState where
  recon : ReconState
  exited : Bool
deriving DecidableEq, Repr

def applyEffect (s : SysState) : BootEffect → SysState
  | .logError => s
  | .stopPollingEff => { s with recon := stopAllPolling s.recon }
  | .exitProcess => { s with exited := true }

def runEffects (s : SysState) (l : List BootEffect) : SysState :=
  l.foldl applyEffect s

/-- Effect sequence of the `uncaughtException` handler (index.js lines
24-28): log, stop all polling, exit(1). -/
def uncaughtExceptionHandler : List BootEffect :=
  [.logError, .stopPollingEff, .exitProcess]

/-- Effect sequence of the `unhandledRejection` handler (index.js lines
30-37): log, stop all polling, exit(1). -/
def unhandledRejectionHandler : List BootEffect :=
  [.logError, .stopPollingEff, .exitProcess]

/-- A poll with timer handle `t` can fire in state `s` only while the
process is alive and its timer is still pending. -/
def canFirePoll (s : SysState) (t : Nat) : Prop :=
  s.exited = false ∧ t ∈ s.recon.pendingPolls

/-! ### Theorems -/

/-- Deleting a connection id from the cache leaves no entry under it. -/
theorem lookup_clearCachedInstance (c : Cache) (id : Nat) :
    List.lookup id (clearCachedInstance c id) = none := by
  induction c with
  | nil => rfl
  | cons p rest ih =>
    obtain ⟨k, v⟩ := p
    by_cases h : k = id
    · have hc : (!(k == id)) = false := by simp [h]
      simp only [clearCachedInstance, List.filter_cons, hc] at ih ⊢
      simpa using ih
    · have hc : (!(k == id)) = true := by simp [h]
      have h2 : (id == k) = false := by
        simp only [beq_eq_false_iff_ne, ne_eq]
        exact fun hh => h hh.symm
      simp only [clearCachedInstance, List.filter_cons, hc, if_true] at ih ⊢
      simp only [List.lookup, h2]
      exact ih

/-- C9: for every connection id, after `logout` completes — whether the
broker logout call succeeds or throws — the session cache contains no
entry for that id: the cached session is evicted on the error path too. -/
theorem logout_evicts_cache (env : Env) (id : Nat) (cache : Cache) :
    List.lookup id (logout env id cache).cache = none := by
  unfold logout
  cases h : getShoonyaInstance env id cache with
  | mk result calls c =>
    cases result with
    | error e => simpa using lookup_clearCachedInstance c id
    | ok s =>
      by_cases hl : env.logoutOk <;>
        simpa [hl] using lookup_clearCachedInstance c id

/-- C10: every entry of an aggregated positions or holdings result has a
quantity whose absolute value is strictly positive — zero-quantity
entries are filtered out after normalization. -/
theorem aggregated_entries_have_nonzero_quantity
    (conns : List ConnInfo)
    (fetchP : ConnInfo → Except String (List RawPosition))
    (fetchH : ConnInfo → Except String (List RawHolding)) :
    (∀ p ∈ (fetchPositionsData conns fetchP).1, 0 < p.quantity.natAbs) ∧
    (∀ h ∈ (fetchHoldingsData conns fetchH).1, 0 < h.quantity.natAbs) := by
  constructor
  · intro p hp
    have := List.mem_filter.mp hp
    simpa using this.2
  · intro h hh
    have := List.mem_filter.mp hh
    simpa using this.2

/-- Concrete raw entry with a short (negative) quantity, used as input in
several witnesses. -/
def rawC10 : RawPosition := { quantity := some (-10) }

/-- Concrete raw holding entry. -/
def rawHC10 : RawHolding := { quantity := some 3 }

/-- Connection used in the C10 witness. -/
def connC10 : ConnInfo := ⟨7, "shoonya"⟩

/-- Witness for C10 at a concrete aggregation input. -/
theorem aggregated_entries_have_nonzero_quantity_witness :
    0 < (formatPosition connC10 rawC10).quantity.natAbs ∧
    0 < (formatHolding connC10 rawHC10).quantity.natAbs :=
  ⟨(aggregated_entries_have_nonzero_quantity [connC10]
      (fun _ => .ok [rawC10]) (fun _ => .ok [rawHC10])).1
      (formatPosition connC10 rawC10) (by decide),
   (aggregated_entries_have_nonzero_quantity [connC10]
      (fun _ => .ok [rawC10]) (fun _ => .ok [rawHC10])).2
      (formatHolding connC10 rawHC10) (by decide)⟩

/-- C8: both fatal-condition handlers registered in `bootstrap`
(uncaught exception and unhandled rejection) stop the reconciliation
service — leaving no pending poll timers — strictly before the process
exit effect runs (after the first two effects all polls are cancelled
while the process is still alive), so no poll can fire once shutdown has
begun. -/
theorem fatal_handlers_stop_polling_before_exit (recon : ReconState) :
    runEffects ⟨recon, false⟩ uncaughtExceptionHandler = ⟨⟨[]⟩, true⟩ ∧
    runEffects ⟨recon, false⟩ unhandledRejectionHandler = ⟨⟨[]⟩, true⟩ ∧
    (runEffects ⟨recon, false⟩ [.logError, .stopPollingEff]).recon.pendingPolls = [] ∧
    (runEffects ⟨recon, false⟩ [.logError, .stopPollingEff]).exited = false ∧
    (∀ t, ¬ canFirePoll (runEffects ⟨recon, false⟩ uncaughtExceptionHandler) t) ∧
    (∀ t, ¬ canFirePoll (runEffects ⟨recon, false⟩ unhandledRejectionHandler) t) := by
  refine ⟨rfl, rfl, rfl, rfl, ?_, ?_⟩ <;>
    · intro t h
      have := h.1
      simp [runEffects, applyEffect, uncaughtExceptionHandler,
        unhandledRejectionHandler] at this

/-- Witness for C8 at a concrete reconciliation state and timer. -/
theorem fatal_handlers_stop_polling_before_exit_witness :
    ¬ canFirePoll (runEffects ⟨⟨[5]⟩, false⟩ uncaughtExceptionHandler) 5 :=
  (fatal_handlers_stop_polling_before_exit ⟨[5]⟩).2.2.2.2.1 5

/-- C4: on a cache miss, `getShoonyaInstance` follows the initialization
algorithm: it fails (touching neither the network nor the cache) when no
active connection row exists; any row it does load is active and matches
the id; with credentials present and unexpired it decrypts them, builds
the session, probes it with the single `userdetails` call, and caches
and returns the session exactly when the probe succeeds — on probe
failure it throws and the cache is unchanged (nothing is cached). -/
theorem getShoonyaInstance_cache_miss_algorithm
    (env : Env) (id : Nat) (cache : Cache)
    (hmiss : List.lookup id cache = none) :
    (dbGet env.db id = none →
      getShoonyaInstance env id cache =
        ⟨.error "Broker connection not found or inactive", [], cache⟩) ∧
    (∀ conn, dbGet env.db id = some conn → conn.is_active = true ∧ conn.id = id) ∧
    (∀ conn, dbGet env.db id = some conn →
      truthyS conn.api_secret = true →
      truthyS conn.access_token = true →
      (truthyI conn.access_token_expires_at &&
        decide (conn.access_token_expires_at.getD 0 < env.now)) = false →
      (env.probeOk (mkSession env conn) = true →
        getShoonyaInstance env id cache =
          ⟨.ok (mkSession env conn), [.userdetails],
            cacheSet cache conn.id (mkSession env conn)⟩) ∧
      (env.probeOk (mkSession env conn) = false →
        getShoonyaInstance env id cache =
          ⟨.error "Failed to initialize Shoonya connection: Connection test failed",
            [.userdetails], cache⟩)) := by
  refine ⟨?_, ?_, ?_⟩
  · intro h
    simp [getShoonyaInstance, hmiss, h]
  · intro conn h
    have hfind := List.find?_some h
    simp only [Bool.and_eq_true, beq_iff_eq] at hfind
    exact ⟨hfind.2, hfind.1⟩
  · intro conn h hs ht he
    constructor
    · intro hp
      simp [getShoonyaInstance, hmiss, h, initializeShoonya, hs, ht, he, hp]
    · intro hp
      simp [getShoonyaInstance, hmiss, h, initializeShoonya, hs, ht, he, hp]

/-- Connection row used in the C4 witness: active, with credentials and
an expiry in the future. -/
def connC4 : BrokerConnection := ⟨1, "USER1", some "encsec", some "enctok", some 200, true⟩

/-- Environment used in the C4 witness: the probe succeeds. -/
def envC4 : Env :=
  { db := [connC4], decrypt := fun s => s, now := 100
    probeOk := fun _ => true, placeOk := true, logoutOk := true }

/-- Witness for C4: a concrete cache-miss initialization that probes
once, caches and returns the session. -/
theorem getShoonyaInstance_cache_miss_algorithm_witness :
    getShoonyaInstance envC4 1 [] =
      ⟨.ok (mkSession envC4 connC4), [.userdetails],
        cacheSet [] connC4.id (mkSession envC4 connC4)⟩ :=
  ((getShoonyaInstance_cache_miss_algorithm envC4 1 [] rfl).2.2 connC4
    rfl rfl rfl rfl).1 rfl

/-- Session cached for the expired connection in the C2 counterexample. -/
def sessC2 : ShoonyaSession := ⟨"sec", "tok", "USER2", "USER2"⟩

/-- Connection row whose access token expired at epoch 50. -/
def connC2 : BrokerConnection := ⟨2, "USER2", some "sec", some "tok", some 50, true⟩

/-- Environment at epoch 100, after the token of connection 2 expired. -/
def envC2 : Env :=
  { db := [connC2], decrypt := fun s => s, now := 100
    probeOk := fun _ => true, placeOk := true, logoutOk := true }

/-- Cache holding a session for the expired connection 2. -/
def cacheC2 : Cache := [(2, sessC2)]

/-- C2 counterexample: with the stored `access_token_expires_at` (epoch
50) strictly in the past of `now` (epoch 100), `getShoonyaInstance`
still returns the cached session successfully — it does not fail with a
session-expired error, so an expired cached session IS returned. -/
theorem getShoonyaInstance_returns_expired_cached_session :
    dbGet envC2.db 2 = some connC2 ∧
    connC2.access_token_expires_at = some 50 ∧
    envC2.now = 100 ∧ (50 : Int) < 100 ∧
    getShoonyaInstance envC2 2 cacheC2 = ⟨.ok sessC2, [], cacheC2⟩ :=
  ⟨rfl, rfl, rfl, by decide, rfl⟩

/-- C2 (amended): `getShoonyaInstance` never checks
`access_token_expires_at` on the cached path — any cached session is
returned unchanged with no network call — while the very same expired
connection fails with the token-expired error when initialized on a
cache miss: the expiry check exists only inside `initializeShoonya`. -/
theorem getShoonyaInstance_cached_skips_expiry_check
    (env : Env) (id : Nat) (cache : Cache) (s : ShoonyaSession)
    (conn : BrokerConnection)
    (hc : List.lookup id cache = some s)
    (hdb : dbGet env.db id = some conn)
    (hs : truthyS conn.api_secret = true)
    (ht : truthyS conn.access_token = true)
    (he : (truthyI conn.access_token_expires_at &&
      decide (conn.access_token_expires_at.getD 0 < env.now)) = true) :
    getShoonyaInstance env id cache = ⟨.ok s, [], cache⟩ ∧
    getShoonyaInstance env id [] =
      ⟨.error "Failed to initialize Shoonya connection: Session token has expired. Please refresh your token.",
        [], []⟩ := by
  constructor
  · simp [getShoonyaInstance, hc]
  · simp [getShoonyaInstance, hdb, initializeShoonya, hs, ht, he]

/-- Witness for the amended C2 at the concrete expired connection. -/
theorem getShoonyaInstance_cached_skips_expiry_check_witness :
    getShoonyaInstance envC2 2 cacheC2 = ⟨.ok sessC2, [], cacheC2⟩ ∧
    getShoonyaInstance envC2 2 [] =
      ⟨.error "Failed to initialize Shoonya connection: Session token has expired. Please refresh your token.",
        [], []⟩ :=
  getShoonyaInstance_cached_skips_expiry_check envC2 2 cacheC2 sessC2 connC2
    rfl rfl rfl rfl rfl

/-- Session cached for connection 1 in the placeOrder scenarios. -/
def sessC1 : ShoonyaSession := ⟨"sec", "tok", "USER1", "USER1"⟩

/-- Cache with a live session for connection 1 (so obtaining the session
makes no network call). -/
def cacheC1 : Cache := [(1, sessC1)]

/-- Environment for the placeOrder scenarios. -/
def envC1 : Env :=
  { db := [], decrypt := fun s => s, now := 0
    probeOk := fun _ => true, placeOk := true, logoutOk := true }

/-- A LIMIT order request with no price. -/
def pLimitNoPrice : OrderParams :=
  { tsym := some "RELIANCE-EQ", trantype := some "B", qty := some 1
    prctyp := some "LMT" }

/-- C1 counterexample: a LIMIT order with an absent price is NOT rejected
— `placeOrder` succeeds and performs an outbound `placeorder` network
call (with the price silently defaulted to 0), contradicting the claimed
validation failure with zero network calls. -/
theorem placeOrder_limit_no_price_dispatches_cex :
    pLimitNoPrice.prctyp = some "LMT" ∧ pLimitNoPrice.prc = none ∧
    (placeOrder envC1 1 pLimitNoPrice cacheC1).result =
      .ok (mkShoonyaOrderData pLimitNoPrice) ∧
    (placeOrder envC1 1 pLimitNoPrice cacheC1).calls =
      [.placeorder (mkShoonyaOrderData pLimitNoPrice)] ∧
    (mkShoonyaOrderData pLimitNoPrice).prc = 0 ∧
    [NetCall.placeorder (mkShoonyaOrderData pLimitNoPrice)] ≠ [] :=
  ⟨rfl, rfl, rfl, rfl, rfl, by simp⟩

/-- C1 (amended): `placeOrder` never validates the price: with a cached
session and the other required fields present, a LIMIT request whose
price is absent passes validation, its wire price defaults to 0, and the
order is dispatched to the broker in a single `placeorder` network
call. -/
theorem placeOrder_limit_no_price_dispatches
    (env : Env) (id : Nat) (cache : Cache) (s : ShoonyaSession) (p : OrderParams)
    (hc : List.lookup id cache = some s)
    (ht : truthyS p.tsym = true)
    (htr : truthyS p.trantype = true)
    (hq : truthyI p.qty = true)
    (hl : p.prctyp = some "LMT")
    (hp : p.prc = none) :
    (mkShoonyaOrderData p).prc = 0 ∧
    (placeOrder env id p cache).calls = [.placeorder (mkShoonyaOrderData p)] := by
  constructor
  · simp [mkShoonyaOrderData, hl, hp, jsOrR]
  · by_cases hpk : env.placeOk <;>
      simp [placeOrder, getShoonyaInstance, hc, ht, htr, hq, hpk]

/-- Witness for the amended C1 at the concrete LIMIT-without-price
request. -/
theorem placeOrder_limit_no_price_dispatches_witness :
    (mkShoonyaOrderData pLimitNoPrice).prc = 0 ∧
    (placeOrder envC1 1 pLimitNoPrice cacheC1).calls =
      [.placeorder (mkShoonyaOrderData pLimitNoPrice)] :=
  placeOrder_limit_no_price_dispatches envC1 1 cacheC1 sessC1 pLimitNoPrice
    rfl rfl rfl rfl rfl rfl

/-- A market order request with a negative quantity. -/
def pNegQty : OrderParams :=
  { tsym := some "RELIANCE-EQ", trantype := some "B", qty := some (-5)
    prctyp := some "MKT" }

/-- C7 counterexample: a negative quantity passes the JS truthiness check
`if (!orderParams.qty)` — the order is dispatched to the broker with
quantity −5 instead of being rejected before any network call. -/
theorem placeOrder_negative_qty_dispatches_cex :
    pNegQty.qty = some (-5) ∧
    (placeOrder envC1 1 pNegQty cacheC1).result = .ok (mkShoonyaOrderData pNegQty) ∧
    (placeOrder envC1 1 pNegQty cacheC1).calls =
      [.placeorder (mkShoonyaOrderData pNegQty)] ∧
    (mkShoonyaOrderData pNegQty).qty = -5 ∧
    [NetCall.placeorder (mkShoonyaOrderData pNegQty)] ≠ [] :=
  ⟨rfl, rfl, rfl, rfl, by simp⟩

/-- C7 (amended): with a cached session, only a JS-falsy quantity
(missing or zero) is rejected — with the qty-required error and zero
network calls; a negative quantity is not caught by this check. -/
theorem placeOrder_falsy_qty_rejected
    (env : Env) (id : Nat) (cache : Cache) (s : ShoonyaSession) (p : OrderParams)
    (hc : List.lookup id cache = some s)
    (ht : truthyS p.tsym = true)
    (htr : truthyS p.trantype = true)
    (hq : truthyI p.qty = false) :
    (placeOrder env id p cache).result =
      .error "Order placement failed: qty is required" ∧
    (placeOrder env id p cache).calls = [] := by
  constructor <;> simp [placeOrder, getShoonyaInstance, hc, ht, htr, hq]

/-- A market order request with quantity zero. -/
def pZeroQty : OrderParams :=
  { tsym := some "RELIANCE-EQ", trantype := some "B", qty := some 0 }

/-- Witness for the amended C7 at the concrete zero-quantity request. -/
theorem placeOrder_falsy_qty_rejected_witness :
    (placeOrder envC1 1 pZeroQty cacheC1).result =
      .error "Order placement failed: qty is required" ∧
    (placeOrder envC1 1 pZeroQty cacheC1).calls = [] :=
  placeOrder_falsy_qty_rejected envC1 1 cacheC1 sessC1 pZeroQty rfl rfl rfl rfl

/-- A short position (negative quantity) for which the broker supplies no
P&L value: 10 short at average 100, now trading at 110. -/
def rawShort : RawPosition :=
  { quantity := some (-10), average_price := some 100, current_price := some 110 }

/-- Connection used in the C5 counterexample. -/
def connC5 : ConnInfo := ⟨3, "shoonya"⟩

/-- C5 counterexample: for the short position (quantity −10, average 100,
current 110) with no broker-supplied pnl, the code reports +100 — it
computes the fallback from the ABSOLUTE quantity — while the claimed
formula (current − average) × signed quantity gives −100. -/
theorem calculatedPnL_short_position_cex :
    rawShort.pnl = none ∧ rawShort.unrealised = none ∧
    (formatPosition connC5 rawShort).quantity = -10 ∧
    calculatedPnL (formatPosition connC5 rawShort).quantity
      (formatPosition connC5 rawShort).average_price
      (formatPosition connC5 rawShort).current_price
      (formatPosition connC5 rawShort).pnl = 100 ∧
    specClaimedPnl none (formatPosition connC5 rawShort).quantity
      (formatPosition connC5 rawShort).average_price
      (formatPosition connC5 rawShort).current_price = -100 ∧
    (100 : Rat) ≠ -100 := by
  refine ⟨rfl, rfl, rfl, ?_, ?_, by norm_num⟩
  · norm_num [calculatedPnL, formatPosition, jsOrI, jsOrR, rawShort]
  · norm_num [specClaimedPnl, formatPosition, jsOrI, jsOrR, rawShort]

/-- C5 (amended): the normalized pnl of a position is the broker-supplied
`pnl` (falling back to `unrealised`) when truthy, else 0; the reported
P&L equals that value when it is nonzero, and otherwise equals
(current_price − average_price) × |quantity| — the absolute quantity,
not the signed one, so a broker-supplied pnl of exactly 0 also falls
through to this computed value. -/
theorem calculatedPnL_fallback_uses_absolute_quantity
    (conn : ConnInfo) (raw : RawPosition) (q : Int) (avg cur pnl : Rat)
    (hp : pnl ≠ 0) :
    (formatPosition conn raw).pnl = jsOrR raw.pnl (jsOrR raw.unrealised 0) ∧
    calculatedPnL q avg cur pnl = pnl ∧
    calculatedPnL q avg cur 0 = (cur - avg) * (q.natAbs : Rat) := by
  refine ⟨rfl, ?_, ?_⟩
  · simp [calculatedPnL, hp]
  · simp only [calculatedPnL, bne_self_eq_false, Bool.false_eq_true, if_false]
    ring

/-- Witness for the amended C5 at concrete values. -/
theorem calculatedPnL_fallback_uses_absolute_quantity_witness :
    (formatPosition connC5 rawShort).pnl =
      jsOrR rawShort.pnl (jsOrR rawShort.unrealised 0) ∧
    calculatedPnL (-10) 100 110 7 = 7 ∧
    calculatedPnL (-10) 100 110 0 = ((110 : Rat) - 100) * (((-10 : Int)).natAbs : Rat) :=
  calculatedPnL_fallback_uses_absolute_quantity connC5 rawShort (-10) 100 110 7
    (by norm_num)

/-- The per-connection status list produced by the positions loop is the
in-order success/failure map over all requested connections. -/
theorem positionsLoop_statuses
    (fetch : ConnInfo → Except String (List RawPosition)) (conns : List ConnInfo) :
    (positionsLoop fetch conns).2 = conns.map (fun c => (c.id, exceptOk (fetch c))) := by
  induction conns with
  | nil => rfl
  | cons c rest ih =>
    simp only [positionsLoop, List.map_cons]
    cases h : fetch c <;> simp [h, exceptOk, ih]

/-- Every normalized entry of a successfully fetched connection appears
in the positions accumulated by the loop. -/
theorem positionsLoop_mem
    (fetch : ConnInfo → Except String (List RawPosition)) (conns : List ConnInfo)
    (c : ConnInfo) (hc : c ∈ conns) (raws : List RawPosition)
    (hf : fetch c = .ok raws) (raw : RawPosition) (hr : raw ∈ raws) :
    formatPosition c raw ∈ (positionsLoop fetch conns).1 := by
  induction conns with
  | nil => cases hc
  | cons d rest ih =>
    rcases List.mem_cons.mp hc with h | h
    · subst h
      simp only [positionsLoop, hf]
      exact List.mem_append_left _ (List.mem_map_of_mem _ hr)
    · simp only [positionsLoop]
      cases hfd : fetch d with
      | ok raws2 => exact List.mem_append_right _ (ih h)
      | error e => exact ih h

/-- C6: aggregating positions over a set of connections isolates
failures: the per-connection status map records success or failure for
every requested connection in order (a failing connection gets a `false`
entry), and every nonzero-quantity entry fetched from any succeeding
connection is still returned — no single failure aborts the
aggregation. -/
theorem fetchPositionsData_isolates_per_connection_failure
    (conns : List ConnInfo) (fetch : ConnInfo → Except String (List RawPosition)) :
    ((fetchPositionsData conns fetch).2 =
      conns.map (fun c => (c.id, exceptOk (fetch c)))) ∧
    (∀ c ∈ conns, ∀ e, fetch c = .error e →
      (c.id, false) ∈ (fetchPositionsData conns fetch).2) ∧
    (∀ c ∈ conns, ∀ raws, fetch c = .ok raws → ∀ raw ∈ raws,
      0 < (formatPosition c raw).quantity.natAbs →
      formatPosition c raw ∈ (fetchPositionsData conns fetch).1) := by
  refine ⟨positionsLoop_statuses fetch conns, ?_, ?_⟩
  · intro c hc e he
    have : (c.id, false) = (fun c => (c.id, exceptOk (fetch c))) c := by
      simp [he, exceptOk]
    rw [show (fetchPositionsData conns fetch).2 =
        conns.map (fun c => (c.id, exceptOk (fetch c))) from
      positionsLoop_statuses fetch conns, this]
    exact List.mem_map_of_mem _ hc
  · intro c hc raws hf raw hr hq
    exact List.mem_filter.mpr ⟨positionsLoop_mem fetch conns c hc raws hf raw hr,
      by simpa using hq⟩

/-- Connections used in the C6 witness: connection 1 fails, connection 2
succeeds. -/
def connsC6 : List ConnInfo := [⟨1, "alpha"⟩, ⟨2, "beta"⟩]

/-- Fetch outcome used in the C6 witness: the adapter for connection 1
throws, connection 2 returns one nonzero position. -/
def fetchC6 : ConnInfo → Except String (List RawPosition) :=
  fun c => if c.id == 1 then .error "adapter threw" else .ok [rawC10]

/-- Witness for C6: the failing connection gets a false status entry and
the other connection's position is still returned. -/
theorem fetchPositionsData_isolates_per_connection_failure_witness :
    ((1 : Nat), false) ∈ (fetchPositionsData connsC6 fetchC6).2 ∧
    formatPosition ⟨2, "beta"⟩ rawC10 ∈ (fetchPositionsData connsC6 fetchC6).1 :=
  ⟨(fetchPositionsData_isolates_per_connection_failure connsC6 fetchC6).2.1
      ⟨1, "alpha"⟩ (by decide) "adapter threw" rfl,
   (fetchPositionsData_isolates_per_connection_failure connsC6 fetchC6).2.2
      ⟨2, "beta"⟩ (by decide) [rawC10] rfl rawC10 (by decide) (by decide)⟩

/-- How many probes a task has performed, read off its program counter:
one as soon as it has passed the probe segment (pc 2). -/
def probesOf (pc : Nat) : Nat :=
  if 3 ≤ pc then 1 else 0

/-- Invariant of the interleaving semantics once both tasks have passed
their cache check on a miss: each pc stays in 1..4 and the probe counter
equals the number of tasks that are past the probe segment. -/
def ConcInv (s : ConcState) : Prop :=
  1 ≤ s.pcA ∧ s.pcA ≤ 4 ∧ 1 ≤ s.pcB ∧ s.pcB ≤ 4 ∧
    s.probes = probesOf s.pcA + probesOf s.pcB

theorem concInv_doStep (t : Bool) (s : ConcState) (h : ConcInv s) :
    ConcInv (doStep t s) := by
  obtain ⟨ha1, ha4, hb1, hb4, hp⟩ := h
  cases t
  · interval_cases hA : s.pcA
    · simp_all [doStep, stepPc, ConcInv, probesOf]
    · simp_all [doStep, stepPc, ConcInv, probesOf]
      omega
    · simp_all [doStep, stepPc, ConcInv, probesOf]
    · simp_all [doStep, stepPc, ConcInv, probesOf]
  · interval_cases hB : s.pcB
    · simp_all [doStep, stepPc, ConcInv, probesOf]
    · simp_all [doStep, stepPc, ConcInv, probesOf]
    · simp_all [doStep, stepPc, ConcInv, probesOf]
    · simp_all [doStep, stepPc, ConcInv, probesOf]

theorem concInv_runSched (sched : List Bool) (s : ConcState) (h : ConcInv s) :
    ConcInv (runSched sched s) := by
  induction sched generalizing s with
  | nil => exact h
  | cons t rest ih => exact ih (doStep t s) (concInv_doStep t s h)

/-- C3 counterexample: the interleaving in which both concurrent
`getShoonyaInstance` calls pass the cache check before either completes
performs TWO authentication probes (both tasks finish), not exactly
one. -/
theorem concurrent_getSession_two_probes_cex :
    (runSched interleavedSched initConc).probes = 2 ∧
    (runSched interleavedSched initConc).pcA = 4 ∧
    (runSched interleavedSched initConc).pcB = 4 ∧
    (2 : Nat) ≠ 1 := by decide

/-- C3 (amended): there is no in-flight coordination — after both
concurrent callers pass the cache check (the prefix A-check, B-check,
possible because initialization suspends at its awaits between the check
and the cache write), EVERY continuation that completes both tasks has
performed exactly two authentication probes, one per caller; a single
probe happens only when one call completes before the other checks, as
in the fully serialized schedule. -/
theorem concurrent_getSession_both_probe (rest : List Bool)
    (hA : (runSched ([false, true] ++ rest) initConc).pcA = 4)
    (hB : (runSched ([false, true] ++ rest) initConc).pcB = 4) :
    (runSched ([false, true] ++ rest) initConc).probes = 2 ∧
    (runSched sequentialSched initConc).probes = 1 := by
  constructor
  · have hmid : runSched [false, true] initConc = ⟨false, 1, 1, 0⟩ := by decide
    have hsplit : runSched ([false, true] ++ rest) initConc =
        runSched rest (runSched [false, true] initConc) := by
      simp [runSched, List.foldl_append]
    have hinv : ConcInv (runSched ([false, true] ++ rest) initConc) := by
      rw [hsplit, hmid]
      exact concInv_runSched rest _ (by norm_num [ConcInv, probesOf])
    have := hinv.2.2.2.2
    rw [hA, hB] at this
    simpa [probesOf] using this
  · decide

/-- Witness for the amended C3: the concrete completing continuation in
which B proceeds after A finishes its initialization. -/
theorem concurrent_getSession_both_probe_witness :
    (runSched ([false, true] ++ [false, false, false, true, true, true]) initConc).probes = 2 ∧
    (runSched sequentialSched initConc).probes = 1 :=
  concurrent_getSession_both_probe [false, false, false, true, true, true]
    (by decide) (by decide)

end Spec2Proof
